import Mathlib

/-!
Verification of the quadrature-to-single-pulse converter sketch.

The decoder variant of the sketch keeps four globals
(`QuadStatePrevious`, `QuadState`, `NewMovement`, `PrevMovement`),
a 16-entry movement lookup table, a phase-change handler `QuadChange`
and a timer-1 overflow handler.  We embed the handlers as pure
functions on an explicit state record, and additionally record the
sequence of hardware side effects each invocation performs as a list
of events, so that ordering claims can be stated.
-/

namespace QuadToSingle

/-- `CPU_CLOCK_PER_US`: CPU clocks per micro-second (16 MHz clock). -/
def CPU_CLOCK_PER_US : Nat := 16

/-- `PULSE_LEN_US`: the output pulse length in micro-seconds. -/
def PULSE_LEN_US : Nat := 50

/-- `PULSE_LEN_CPU_CLOCKS`: clock counts that set the output pulse width. -/
def PULSE_LEN_CPU_CLOCKS : Nat := PULSE_LEN_US * CPU_CLOCK_PER_US

/-- `PULSE_LEN_TIMER_VAL`: value loaded into the 16-bit timer so that it
overflows after the pulse width (source: `0xFFFFU - PULSE_LEN_CPU_CLOCKS`). -/
def PULSE_LEN_TIMER_VAL : Nat := 0xFFFF - PULSE_LEN_CPU_CLOCKS

/-- Maximum value of the 16-bit timer counter. -/
def MAX_COUNT : Nat := 0xFFFF

/-- One timer tick in picoseconds: one CPU clock period at prescaler 1
(1 us / 16 = 62.5 ns = 62500 ps). -/
def TIMER_TICK_PS : Nat := 1000000 / CPU_CLOCK_PER_US

/-- The compile-time pulse width in picoseconds. -/
def PULSE_WIDTH_PS : Nat := PULSE_LEN_US * 1000000

/-- `MSK_PREV_STATE`: mask picking out the previous 2-bit state. -/
def MSK_PREV_STATE : Nat := 0x03

/-- `MSK_NEW_STATE`: mask picking out the newly sampled port bits. -/
def MSK_NEW_STATE : Nat := 0x0C

/-- `RIGHT_SHIFT_NEW_TO_PREV`: shift from the new bits down to the previous bits. -/
def RIGHT_SHIFT_NEW_TO_PREV : Nat := 2

/-- `QuadLookup`: the 16-entry movement table, entries copied in order
from the source array. -/
def QuadLookup : List Int :=
  [ 0, -1, 1, 0,
    1, 0, 0, -1,
    -1, 0, 0, 1,
    0, 1, -1, 0 ]

/-- The global state of the sketch: the four decoder globals together
with the hardware bits the handlers touch (output pin level, timer
counter, timer-overflow interrupt enable, timer-overflow flag). -/
structure QuadSt where
  QuadStatePrevious : Nat
  QuadState : Nat
  NewMovement : Int
  PrevMovement : Int
  pulseOut : Bool
  TCNT1 : Nat
  TOIE1 : Bool
  TOV1 : Bool
deriving DecidableEq

/-- Hardware side effects performed by a handler invocation, in
program order. -/
inductive Ev where
  | writeQuadState (v : Nat)
  | writeNewMovement (v : Int)
  | togglePulseOut
  | clearTOV1
  | loadTCNT1 (v : Nat)
  | enableTOIE1
  | disableTOIE1
  | writePrevMovement (v : Int)
  | writeQuadStatePrevious (v : Nat)
deriving DecidableEq

/-- The transition code computed on entry to `QuadChange`:
`(QUAD_PORT & MSK_NEW_STATE) | QuadStatePrevious`. -/
def transitionCode (port prevState : Nat) : Nat :=
  (port &&& MSK_NEW_STATE) ||| prevState

/-- The phase-change handler `QuadChange`, embedded as a function from
the sampled port value and pre-state to the post-state and the list of
side effects in program order.  Writing 1 to the `TOV1` bit of `TIFR1`
clears the pending overflow flag, so the `TIFR1 |= _BV(TOV1)` line is
modelled as setting the flag to false. -/
def QuadChange (port : Nat) (s : QuadSt) : QuadSt × List Ev :=
  let quadState := transitionCode port s.QuadStatePrevious
  let newMovement := QuadLookup.getD quadState 0
  let prevOut := quadState >>> RIGHT_SHIFT_NEW_TO_PREV
  if newMovement = s.PrevMovement then
    ({ QuadStatePrevious := prevOut
       QuadState := quadState
       NewMovement := newMovement
       PrevMovement := newMovement
       pulseOut := !s.pulseOut
       TCNT1 := PULSE_LEN_TIMER_VAL
       TOIE1 := true
       TOV1 := false },
     [Ev.writeQuadState quadState, Ev.writeNewMovement newMovement,
      Ev.togglePulseOut, Ev.clearTOV1,
      Ev.loadTCNT1 PULSE_LEN_TIMER_VAL, Ev.enableTOIE1,
      Ev.writePrevMovement newMovement, Ev.writeQuadStatePrevious prevOut])
  else
    ({ s with
       QuadStatePrevious := prevOut
       QuadState := quadState
       NewMovement := newMovement
       PrevMovement := newMovement },
     [Ev.writeQuadState quadState, Ev.writeNewMovement newMovement,
      Ev.writePrevMovement newMovement, Ev.writeQuadStatePrevious prevOut])

/-- The timer-1 overflow handler `ISR(TIMER1_OVF_vect)` (textually
identical in both source files): toggle the pulse output pin and
disable the overflow interrupt. -/
def timer1OvfIsr (s : QuadSt) : QuadSt × List Ev :=
  ({ s with pulseOut := !s.pulseOut, TOIE1 := false },
   [Ev.togglePulseOut, Ev.disableTOIE1])

/-- The decoder-relevant part of `setup`: the globals start statically
initialised to zero, then `setup` samples the port once and seeds
`QuadState` and `QuadStatePrevious` before interrupts are attached.
`PrevMovement` is left at its static initial value 0. -/
def setupQuad (port : Nat) : QuadSt :=
  let quadState := port &&& MSK_NEW_STATE
  { QuadStatePrevious := quadState >>> RIGHT_SHIFT_NEW_TO_PREV
    QuadState := quadState
    NewMovement := 0
    PrevMovement := 0
    pulseOut := false
    TCNT1 := 0
    TOIE1 := false
    TOV1 := false }

/-- Whether one invocation of `QuadChange` emits a pulse, i.e. its
side-effect trace toggles the output pin. -/
def quadEmits (port : Nat) (s : QuadSt) : Bool :=
  decide (Ev.togglePulseOut ∈ (QuadChange port s).2)

/-- The emission flags of a run of `QuadChange` over a list of sampled
port values. -/
def runQuad (s : QuadSt) : List Nat → List Bool
  | [] => []
  | p :: ps => quadEmits p s :: runQuad (QuadChange p s).1 ps

/-- The transition codes of a run of `QuadChange` over a list of
sampled port values. -/
def runCodes (s : QuadSt) : List Nat → List Nat
  | [] => []
  | p :: ps => (QuadChange p s).1.QuadState :: runCodes (QuadChange p s).1 ps

/-- The state after running `QuadChange` over a list of sampled port
values. -/
def runState (s : QuadSt) : List Nat → QuadSt
  | [] => s
  | p :: ps => runState (QuadChange p s).1 ps

/-- The side effects an invocation performs on the pulse shaper
hardware (pin toggle, timer-flag clear, counter load, interrupt
enable/disable), in program order: the trace restricted to shaper
events. -/
def shaperEvs (evs : List Ev) : List Ev :=
  evs.filter fun e =>
    match e with
    | Ev.togglePulseOut => true
    | Ev.clearTOV1 => true
    | Ev.loadTCNT1 _ => true
    | Ev.enableTOIE1 => true
    | Ev.disableTOIE1 => true
    | _ => false

/-- The forward successor of a 2-bit phase pair in the quadrature Gray
sequence (pair value read off the table's column labels as
`2 * A + B`): 00 → 10 → 11 → 01 → 00. -/
def phaseNext : Nat → Nat
  | 0 => 2
  | 2 => 3
  | 3 => 1
  | _ => 0

/-- Advance both halves of a 4-bit transition code one step along the
quadrature phase sequence: the 2-bit rotational symmetry of the
movement table. -/
def rotCode (c : Nat) : Nat :=
  ((phaseNext ((c >>> 2) &&& 3)) <<< 2) ||| phaseNext (c &&& 3)

/-- Modelled from the spec: the claimed transition-code formation
`TransitionCode = (PhasePairPrevious << 2) | PhasePairCurrent`, with the
previous pair in the high two bits.  Compared below against the code the
handler actually computes. -/
def transitionCodeSpec (prevPair currPair : Nat) : Nat :=
  (prevPair <<< 2) ||| currPair

/-- Modelled from the spec: the claimed order of arming side effects —
clear the pending timer-expiry flag, load the countdown register,
toggle the output pin, enable the expiry interrupt.  Compared below
against the order the handler actually performs. -/
def claimedArmOrder : List Ev :=
  [Ev.clearTOV1, Ev.loadTCNT1 PULSE_LEN_TIMER_VAL,
   Ev.togglePulseOut, Ev.enableTOIE1]

/-! Helper lemmas shared by the claim theorems. -/

lemma quadState_fst (port : Nat) (s : QuadSt) :
    (QuadChange port s).1.QuadState = transitionCode port s.QuadStatePrevious := by
  simp only [QuadChange]
  split <;> rfl

lemma prevMovement_fst (port : Nat) (s : QuadSt) :
    (QuadChange port s).1.PrevMovement =
      QuadLookup.getD (transitionCode port s.QuadStatePrevious) 0 := by
  simp only [QuadChange]
  split <;> rfl

lemma quadStatePrevious_fst (port : Nat) (s : QuadSt) :
    (QuadChange port s).1.QuadStatePrevious =
      transitionCode port s.QuadStatePrevious >>> RIGHT_SHIFT_NEW_TO_PREV := by
  simp only [QuadChange]
  split <;> rfl

lemma toggle_mem_iff (port : Nat) (s : QuadSt) :
    Ev.togglePulseOut ∈ (QuadChange port s).2 ↔
      QuadLookup.getD (transitionCode port s.QuadStatePrevious) 0 = s.PrevMovement := by
  simp only [QuadChange]
  split <;> rename_i h
  · exact iff_of_true (by simp) h
  · exact iff_of_false (by simp) h

lemma enable_mem_iff (port : Nat) (s : QuadSt) :
    Ev.enableTOIE1 ∈ (QuadChange port s).2 ↔
      QuadLookup.getD (transitionCode port s.QuadStatePrevious) 0 = s.PrevMovement := by
  simp only [QuadChange]
  split <;> rename_i h
  · exact iff_of_true (by simp) h
  · exact iff_of_false (by simp) h

lemma quadEmits_eq (port : Nat) (s : QuadSt) :
    quadEmits port s =
      decide (QuadLookup.getD (transitionCode port s.QuadStatePrevious) 0 =
              s.PrevMovement) := by
  rw [quadEmits, decide_eq_decide]
  exact toggle_mem_iff port s

lemma transitionCode_lt (port q : Nat) (hq : q < 4) : transitionCode port q < 16 := by
  have h1 : port &&& MSK_NEW_STATE < 2 ^ 4 :=
    lt_of_le_of_lt Nat.and_le_right (by norm_num [MSK_NEW_STATE])
  have h2 : q < 2 ^ 4 := lt_trans hq (by norm_num)
  simpa using Nat.or_lt_two_pow h1 h2

lemma shiftRight_two_lt (x : Nat) (h : x < 16) : x >>> 2 < 4 := by
  rw [Nat.shiftRight_eq_div_pow]
  norm_num
  omega

lemma quadChange_qsp_lt (port : Nat) (s : QuadSt) (h : s.QuadStatePrevious < 4) :
    (QuadChange port s).1.QuadStatePrevious < 4 := by
  rw [quadStatePrevious_fst]
  exact shiftRight_two_lt _ (transitionCode_lt port _ h)

lemma setupQuad_qsp_lt (port : Nat) : (setupQuad port).QuadStatePrevious < 4 := by
  have h : port &&& MSK_NEW_STATE < 16 :=
    lt_of_le_of_lt Nat.and_le_right (by norm_num [MSK_NEW_STATE])
  simpa [setupQuad] using shiftRight_two_lt _ h

lemma runState_qsp_lt (ports : List Nat) : ∀ (s : QuadSt),
    s.QuadStatePrevious < 4 → (runState s ports).QuadStatePrevious < 4 := by
  induction ports with
  | nil => intro s h; simpa [runState] using h
  | cons p ps ih =>
    intro s h
    rw [runState]
    exact ih _ (quadChange_qsp_lt p s h)

set_option maxRecDepth 8192 in
lemma maskOr_bits : ∀ p < 256, ∀ q < 4,
    ((p &&& 12) ||| q) >>> 2 = (p >>> 2) &&& 3 ∧
    ((p &&& 12) ||| q) &&& 3 = q ∧
    (p &&& 12) ||| q = (((p >>> 2) &&& 3) <<< 2) ||| q := by
  decide

lemma runCodes_cons (p : Nat) (ps : List Nat) (s : QuadSt) :
    runCodes s (p :: ps) =
      transitionCode p s.QuadStatePrevious :: runCodes (QuadChange p s).1 ps := by
  rw [runCodes, quadState_fst]

lemma runQuad_getD_succ (ports : List Nat) : ∀ (s : QuadSt) (i : Nat),
    i + 1 < ports.length →
    (runQuad s ports).getD (i + 1) false =
      decide (QuadLookup.getD ((runCodes s ports).getD (i + 1) 0) 0 =
              QuadLookup.getD ((runCodes s ports).getD i 0) 0) := by
  induction ports with
  | nil => intro s i h; simp at h
  | cons p ps ih =>
    intro s i h
    cases i with
    | zero =>
      cases ps with
      | nil => simp at h
      | cons q qs =>
        simp only [runQuad, runCodes_cons, List.getD_cons_succ, List.getD_cons_zero]
        rw [quadEmits_eq, prevMovement_fst]
    | succ j =>
      have hj : j + 1 < ps.length := by
        simpa using Nat.lt_of_succ_lt_succ h
      simp only [runQuad, runCodes_cons, List.getD_cons_succ]
      exact ih _ j hj

/-! The claim theorems. -/

/-- Claim C1: an invocation of `QuadChange` toggles the pulse output
pin and arms the one-shot timer if and only if the movement looked up
for the current transition code equals the movement recorded at the
previous invocation, under literal signed equality (both being 0 also
emits); and over any run, the pulse emitted at transition `i` is
exactly the test `QuadLookup[code i] == QuadLookup[code (i-1)]`. -/
theorem quadchange_pulse_iff_movement_repeat (port : Nat) (s : QuadSt)
    (ports : List Nat) :
    ((Ev.togglePulseOut ∈ (QuadChange port s).2 ∧
        Ev.enableTOIE1 ∈ (QuadChange port s).2) ↔
      QuadLookup.getD (transitionCode port s.QuadStatePrevious) 0 =
        s.PrevMovement) ∧
    ∀ i, i + 1 < ports.length →
      ((runQuad s ports).getD (i + 1) false = true ↔
        QuadLookup.getD ((runCodes s ports).getD (i + 1) 0) 0 =
        QuadLookup.getD ((runCodes s ports).getD i 0) 0) := by
  constructor
  · constructor
    · rintro ⟨h, -⟩
      exact (toggle_mem_iff port s).1 h
    · intro h
      exact ⟨(toggle_mem_iff port s).2 h, (enable_mem_iff port s).2 h⟩
  · intro i hi
    rw [runQuad_getD_succ ports s i hi]
    simp

/-- Claim C1 witness: at the concrete run from `setupQuad 0` over port
samples `[4, 0, 4, 12]`, instantiated at transition index 2. -/
theorem quadchange_pulse_iff_movement_repeat_witness :
    (1 + 1 < ([4, 0, 4, 12] : List Nat).length) ∧
    ((runQuad (setupQuad 0) [4, 0, 4, 12]).getD 2 false = true ↔
      QuadLookup.getD ((runCodes (setupQuad 0) [4, 0, 4, 12]).getD 2 0) 0 =
      QuadLookup.getD ((runCodes (setupQuad 0) [4, 0, 4, 12]).getD 1 0) 0) :=
  ⟨by decide,
   (quadchange_pulse_iff_movement_repeat 4 (setupQuad 0) [4, 0, 4, 12]).2 1
     (by decide)⟩

/-- Claim C2: on every reachable invocation the computed table index is
below 16 (the table's length), and the table is total with values in
{-1, 0, 1}, so no out-of-bounds access or undefined result is
reachable. -/
theorem transition_index_total (s0 port : Nat) (ports : List Nat) :
    transitionCode port (runState (setupQuad s0) ports).QuadStatePrevious < 16 ∧
    QuadLookup.length = 16 ∧
    ∀ i < 16, QuadLookup.getD i 0 = -1 ∨ QuadLookup.getD i 0 = 0 ∨
      QuadLookup.getD i 0 = 1 := by
  refine ⟨?_, by decide, by decide⟩
  exact transitionCode_lt port _ (runState_qsp_lt ports _ (setupQuad_qsp_lt s0))

/-- Claim C2 witness: instantiated at initial port 0, next port 0, no
intermediate transitions, and the table-totality half at index 5. -/
theorem transition_index_total_witness :
    ((5 : Nat) < 16) ∧
    (QuadLookup.getD 5 0 = -1 ∨ QuadLookup.getD 5 0 = 0 ∨
      QuadLookup.getD 5 0 = 1) :=
  ⟨by decide, (transition_index_total 0 0 []).2.2 5 (by decide)⟩

/-- Claim C9: starting from the initial decoder state, the port sample
sequence `[4, 0, 4, 12]` has table movements `[+1, -1, +1, +1]`, and
exactly one pulse is emitted, at the fourth transition. -/
theorem glitch_rejection_example :
    (runCodes (setupQuad 0) [4, 0, 4, 12]).map
        (fun c => QuadLookup.getD c 0) = [1, -1, 1, 1] ∧
    runQuad (setupQuad 0) [4, 0, 4, 12] = [false, false, false, true] := by
  decide

/-- Claim C10: after `setup`, `PrevMovement` still holds its static
initial value 0, so the first phase-change interrupt emits a pulse if
and only if the first transition's table value is 0; a first transition
with nonzero movement never emits. -/
theorem first_interrupt_pulse_iff_zero (s0 port : Nat) :
    (setupQuad s0).PrevMovement = 0 ∧
    (quadEmits port (setupQuad s0) = true ↔
      QuadLookup.getD
        (transitionCode port (setupQuad s0).QuadStatePrevious) 0 = 0) ∧
    (QuadLookup.getD
        (transitionCode port (setupQuad s0).QuadStatePrevious) 0 ≠ 0 →
      quadEmits port (setupQuad s0) = false) := by
  refine ⟨rfl, ?_, ?_⟩
  · rw [quadEmits_eq]
    simp [setupQuad]
  · intro h
    rw [quadEmits_eq]
    simpa [setupQuad] using h

/-- Claim C10 witness: with initial port 0 and first sample 4
(movement +1, nonzero), the first interrupt emits no pulse. -/
theorem first_interrupt_pulse_iff_zero_witness :
    QuadLookup.getD (transitionCode 4 (setupQuad 0).QuadStatePrevious) 0 ≠ 0 ∧
    quadEmits 4 (setupQuad 0) = false :=
  ⟨by decide, (first_interrupt_pulse_iff_zero 0 4).2.2 (by decide)⟩

/-- Claim C3 counterexample: with previous phase pair 1 and a port read
whose phase bits are 0, the handler computes transition code 1 (current
pair in the high bits, previous pair in the low bits), while the
claimed formation `(previous << 2) | current` would give 4; the two
even disagree on the looked-up movement. -/
theorem transition_code_layout_counterexample :
    (QuadChange 0 { setupQuad 0 with QuadStatePrevious := 1 }).1.QuadState = 1 ∧
    transitionCodeSpec 1 0 = 4 ∧
    (QuadChange 0 { setupQuad 0 with QuadStatePrevious := 1 }).1.QuadState ≠
      transitionCodeSpec 1 0 ∧
    QuadLookup.getD 1 0 ≠ QuadLookup.getD 4 0 := by
  decide

/-- Claim C3 amended: the transition code is formed as
`(PhasePairCurrent << 2) | PhasePairPrevious` — the currently sampled
phase pair occupies the high two bits and the previous pair the low
two bits. -/
theorem transition_code_layout_amended (port : Nat) (s : QuadSt)
    (hp : port < 256) (hq : s.QuadStatePrevious < 4) :
    (QuadChange port s).1.QuadState =
      ((((port >>> 2) &&& 3) <<< 2) ||| s.QuadStatePrevious) ∧
    (QuadChange port s).1.QuadState >>> 2 = (port >>> 2) &&& 3 ∧
    (QuadChange port s).1.QuadState &&& 3 = s.QuadStatePrevious := by
  have h := maskOr_bits port hp s.QuadStatePrevious hq
  rw [quadState_fst]
  exact ⟨h.2.2, h.1, h.2.1⟩

/-- Claim C3 amended witness: instantiated at port 4 and the state left
by `setup` with port 4. -/
theorem transition_code_layout_amended_witness :
    ((4 : Nat) < 256 ∧ (setupQuad 4).QuadStatePrevious < 4) ∧
    (QuadChange 4 (setupQuad 4)).1.QuadState =
      ((((4 >>> 2) &&& 3) <<< 2) ||| (setupQuad 4).QuadStatePrevious) :=
  ⟨⟨by decide, by decide⟩,
   (transition_code_layout_amended 4 (setupQuad 4) (by decide) (by decide)).1⟩

/-- Claim C4 counterexample: at a concrete validated edge the arming
side effects do occur, but not in the claimed order
clear-flag / load / toggle / enable. -/
theorem arm_order_counterexample :
    Ev.enableTOIE1 ∈ (QuadChange 0 (setupQuad 0)).2 ∧
    shaperEvs (QuadChange 0 (setupQuad 0)).2 ≠ claimedArmOrder := by
  decide

/-- Claim C4 amended: when a validated edge arms the pulse shaper, the
side effects occur in this order: first toggle the output pin, then
clear any pending timer-expiry flag, then load the countdown register,
and finally enable the timer's expiry interrupt. -/
theorem arm_order_actual (port : Nat) (s : QuadSt)
    (h : QuadLookup.getD (transitionCode port s.QuadStatePrevious) 0 =
         s.PrevMovement) :
    shaperEvs (QuadChange port s).2 =
      [Ev.togglePulseOut, Ev.clearTOV1,
       Ev.loadTCNT1 PULSE_LEN_TIMER_VAL, Ev.enableTOIE1] := by
  simp only [QuadChange]
  rw [if_pos h]
  rfl

/-- Claim C4 amended witness: instantiated at the arming edge used in
the counterexample. -/
theorem arm_order_actual_witness :
    QuadLookup.getD (transitionCode 0 (setupQuad 0).QuadStatePrevious) 0 =
      (setupQuad 0).PrevMovement ∧
    shaperEvs (QuadChange 0 (setupQuad 0)).2 =
      [Ev.togglePulseOut, Ev.clearTOV1,
       Ev.loadTCNT1 PULSE_LEN_TIMER_VAL, Ev.enableTOIE1] :=
  ⟨by decide, arm_order_actual 0 (setupQuad 0) (by decide)⟩

/-- Claim C5: the loaded countdown value misses the claimed exact
relation by one timer tick.  The code loads `0xFFFF - 800`, so the
timer overflows after 801 ticks: `(MAX_COUNT + 1 - loaded) * tick`
equals the pulse width plus one tick, never the pulse width itself,
although `(MAX_COUNT - loaded) * tick` is exact.  The deviation widens
the pulse, so only the exactness half of the claim fails. -/
theorem pulse_width_off_by_one_tick :
    PULSE_LEN_TIMER_VAL = 0xFFFF - 800 ∧
    (MAX_COUNT + 1 - PULSE_LEN_TIMER_VAL) * TIMER_TICK_PS =
      PULSE_WIDTH_PS + TIMER_TICK_PS ∧
    (MAX_COUNT + 1 - PULSE_LEN_TIMER_VAL) * TIMER_TICK_PS ≠ PULSE_WIDTH_PS ∧
    (MAX_COUNT - PULSE_LEN_TIMER_VAL) * TIMER_TICK_PS = PULSE_WIDTH_PS := by
  decide

/-- Claim C6: the movement table matches standard quadrature
convention: code `0b0010` maps to +1, code `0b0001` maps to -1, the
whole table is invariant under advancing both phase pairs one step
along the quadrature phase sequence, and every code whose two pairs
are equal or differ in both bits maps to 0. -/
theorem movement_table_quadrature_convention :
    QuadLookup.getD 2 0 = 1 ∧ QuadLookup.getD 1 0 = -1 ∧
    (∀ c < 16, QuadLookup.getD (rotCode c) 0 = QuadLookup.getD c 0) ∧
    (∀ c < 16, ((c >>> 2) &&& 3 = c &&& 3 ∨ ((c >>> 2) ^^^ c) &&& 3 = 3) →
      QuadLookup.getD c 0 = 0) := by
  decide

/-- Claim C6 witness: the rotational-symmetry half at code 4 and the
zero-movement half at code 3 (both bits change). -/
theorem movement_table_quadrature_convention_witness :
    ((4 : Nat) < 16 ∧ QuadLookup.getD (rotCode 4) 0 = QuadLookup.getD 4 0) ∧
    ((3 : Nat) < 16 ∧ QuadLookup.getD 3 0 = 0) :=
  ⟨⟨by decide, movement_table_quadrature_convention.2.2.1 4 (by decide)⟩,
   ⟨by decide,
    movement_table_quadrature_convention.2.2.2 3 (by decide) (by decide)⟩⟩

/-- Claim C7: every invocation of `QuadChange` ends by writing
`PrevMovement := NewMovement` and `QuadStatePrevious :=` the phase pair
sampled in that invocation; the two writes are the last two side
effects of the trace, each occurring exactly once there and never
earlier, hence after the emission decision. -/
theorem state_update_unconditional_last (port : Nat) (s : QuadSt)
    (hp : port < 256) (hq : s.QuadStatePrevious < 4) :
    (QuadChange port s).1.PrevMovement = (QuadChange port s).1.NewMovement ∧
    (QuadChange port s).1.NewMovement =
      QuadLookup.getD (transitionCode port s.QuadStatePrevious) 0 ∧
    (QuadChange port s).1.QuadStatePrevious = (port >>> 2) &&& 3 ∧
    ∃ evs, (QuadChange port s).2 =
        evs ++ [Ev.writePrevMovement ((QuadChange port s).1.PrevMovement),
                Ev.writeQuadStatePrevious
                  ((QuadChange port s).1.QuadStatePrevious)] ∧
      (∀ v, Ev.writePrevMovement v ∉ evs) ∧
      (∀ v, Ev.writeQuadStatePrevious v ∉ evs) := by
  have hbits := (maskOr_bits port hp s.QuadStatePrevious hq).1
  refine ⟨?_, ?_, ?_, ?_⟩
  · simp only [QuadChange]
    split <;> rfl
  · simp only [QuadChange]
    split <;> rfl
  · rw [quadStatePrevious_fst]
    exact hbits
  · by_cases hc :
        QuadLookup.getD (transitionCode port s.QuadStatePrevious) 0 =
          s.PrevMovement
    · simp only [QuadChange]
      rw [if_pos hc]
      exact ⟨[Ev.writeQuadState (transitionCode port s.QuadStatePrevious),
              Ev.writeNewMovement
                (QuadLookup.getD (transitionCode port s.QuadStatePrevious) 0),
              Ev.togglePulseOut, Ev.clearTOV1,
              Ev.loadTCNT1 PULSE_LEN_TIMER_VAL, Ev.enableTOIE1],
             rfl, by simp, by simp⟩
    · simp only [QuadChange]
      rw [if_neg hc]
      exact ⟨[Ev.writeQuadState (transitionCode port s.QuadStatePrevious),
              Ev.writeNewMovement
                (QuadLookup.getD (transitionCode port s.QuadStatePrevious) 0)],
             rfl, by simp, by simp⟩

/-- Claim C7 witness: instantiated at port 4 and the state left by
`setup` with port 0. -/
theorem state_update_unconditional_last_witness :
    ((4 : Nat) < 256 ∧ (setupQuad 0).QuadStatePrevious < 4) ∧
    (QuadChange 4 (setupQuad 0)).1.QuadStatePrevious = (4 >>> 2) &&& 3 :=
  ⟨⟨by decide, by decide⟩,
   (state_update_unconditional_last 4 (setupQuad 0)
      (by decide) (by decide)).2.2.1⟩

/-- Claim C8: every execution of the timer-overflow handler, from any
state whatsoever, toggles the output pin back and disables the
timer-overflow interrupt; its side effects are exactly that toggle and
disable. -/
theorem timer_isr_unconditional_disarm (s : QuadSt) :
    (timer1OvfIsr s).1.TOIE1 = false ∧
    (timer1OvfIsr s).1.pulseOut = !s.pulseOut ∧
    (timer1OvfIsr s).2 = [Ev.togglePulseOut, Ev.disableTOIE1] :=
  ⟨rfl, rfl, rfl⟩

end QuadToSingle
